import Mathlib

/-!
Shallow embedding of the audio core of `amplifier.js` (a browser guitar-amplifier
simulator) and proofs about its parameter-mapping logic, signal-graph wiring,
power state machine and configuration validation.

Numeric state is modelled over `ℚ` (exact rationals standing for JS numbers);
the distortion wave-shaper curve, whose coefficient goes through `Math.sin`,
is modelled over `ℝ` with `Real.sin`.
-/

/-- Source `lib.math.clamp(value, min, max) = Math.max(Math.min(value, max), min)`. -/
def lib.math.clamp (value lo hi : ℚ) : ℚ :=
  max (min value hi) lo

/-- Source `lib.math.map(value, initialInterval, finalInterval)` from the source:
`(finalInterval[1] - finalInterval[0]) * value / (initialInterval[1] - initialInterval[0])`.
Note that the source never adds `finalInterval[0]` back. -/
def lib.math.map (value : ℚ) (initialInterval finalInterval : ℚ × ℚ) : ℚ :=
  (finalInterval.2 - finalInterval.1) * value / (initialInterval.2 - initialInterval.1)

/-- State of `amplifier.audio.Volume`: the raw control value inherited from
`amplifier.audio.Node` (`this.value`), the `on` flag (field `isOn`; `on` is reserved in Lean), and the physical gain of
the underlying WebAudio gain node (`this.node_.gain.value`). -/
structure amplifier.audio.Volume where
  value : ℚ
  isOn : Bool
  gain : ℚ
deriving DecidableEq

/-- Source `amplifier.audio.Volume.AMPLIFICATION = 10`. -/
def amplifier.audio.Volume.AMPLIFICATION : ℚ := 10

/-- Source `Volume.prototype.setValue`: writes `newValue * AMPLIFICATION` (or `0.0`
when off) to the gain node, then stores the raw value via `Node.prototype.setValue`. -/
def amplifier.audio.Volume.setValue (s : amplifier.audio.Volume) (newValue : ℚ) :
    amplifier.audio.Volume :=
  { value := newValue
    isOn := s.isOn
    gain := if s.isOn then newValue * amplifier.audio.Volume.AMPLIFICATION else 0 }

/-- Source `Volume.prototype.turnOn`: `this.on = true; this.setValue(this.value)`. -/
def amplifier.audio.Volume.turnOn (s : amplifier.audio.Volume) : amplifier.audio.Volume :=
  amplifier.audio.Volume.setValue { s with isOn := true } s.value

/-- Source `Volume.prototype.turnOff`: `this.on = false; this.setValue(this.value)`. -/
def amplifier.audio.Volume.turnOff (s : amplifier.audio.Volume) : amplifier.audio.Volume :=
  amplifier.audio.Volume.setValue { s with isOn := false } s.value

/-- Source `Node.prototype.getValue`: returns the stored raw control value. -/
def amplifier.audio.Volume.getValue (s : amplifier.audio.Volume) : ℚ :=
  s.value

/-- The `Volume` constructor: `Node` sets `value = 0.0`, the underlying WebAudio
gain node starts at its default gain `1`, then `this.on = false; this.turnOff()`. -/
def amplifier.audio.Volume.init : amplifier.audio.Volume :=
  amplifier.audio.Volume.turnOff { value := 0, isOn := false, gain := 1 }

/-- One externally triggered operation on the volume node. -/
inductive VolumeOp where
  | set (v : ℚ)
  | turnOn
  | turnOff
deriving DecidableEq

/-- Dispatch one operation on the volume node. -/
def amplifier.audio.Volume.apply (s : amplifier.audio.Volume) (op : VolumeOp) :
    amplifier.audio.Volume :=
  match op with
  | VolumeOp.set v => amplifier.audio.Volume.setValue s v
  | VolumeOp.turnOn => amplifier.audio.Volume.turnOn s
  | VolumeOp.turnOff => amplifier.audio.Volume.turnOff s

/-- The spec invariant for the volume node: physical gain is
`controlValue * AMPLIFICATION` when on, `0` when off. -/
def amplifier.audio.Volume.gainInv (s : amplifier.audio.Volume) : Prop :=
  s.gain = if s.isOn then s.value * amplifier.audio.Volume.AMPLIFICATION else 0

/-- State of a `amplifier.audio.Biquad` node (used by `HighPass` and `LowPass`):
raw control value plus the frequency of the underlying WebAudio biquad filter. -/
structure amplifier.audio.Biquad where
  value : ℚ
  frequency : ℚ
deriving DecidableEq

/-- The `Biquad` constructor: `Node` sets `value = 0.0`; a fresh WebAudio
biquad filter has default frequency `350` Hz. -/
def amplifier.audio.Biquad.init : amplifier.audio.Biquad :=
  { value := 0, frequency := 350 }

/-- Source `Biquad.prototype.setValue(newValue, computedValue)`: stores the raw value
via `Node.prototype.setValue` and writes `computedValue` to the filter frequency. -/
def amplifier.audio.Biquad.setValue (_s : amplifier.audio.Biquad)
    (newValue computedValue : ℚ) : amplifier.audio.Biquad :=
  { value := newValue, frequency := computedValue }

/-- Source `Node.prototype.getValue` on a biquad node. -/
def amplifier.audio.Biquad.getValue (s : amplifier.audio.Biquad) : ℚ :=
  s.value

/-- Source `HighPass.prototype.setValue` (the BASS knob):
`computedValue = lib.math.map(Math.pow(1.0 - newValue, 2), [0, 1], [31, 650])`. -/
def amplifier.audio.HighPass.setValue (s : amplifier.audio.Biquad) (newValue : ℚ) :
    amplifier.audio.Biquad :=
  amplifier.audio.Biquad.setValue s newValue
    (lib.math.map ((1 - newValue) ^ 2) (0, 1) (31, 650))

/-- Source `LowPass.prototype.setValue` (the TREBLE knob):
`computedValue = lib.math.map(Math.pow(newValue, 2), [0, 1], [650, 1319])`. -/
def amplifier.audio.LowPass.setValue (s : amplifier.audio.Biquad) (newValue : ℚ) :
    amplifier.audio.Biquad :=
  amplifier.audio.Biquad.setValue s newValue
    (lib.math.map (newValue ^ 2) (0, 1) (650, 1319))

/-- State of `amplifier.audio.BandStop` (the MIDDLE knob): raw control value,
filter center frequency and filter Q. -/
structure amplifier.audio.BandStop where
  value : ℚ
  frequency : ℚ
  q : ℚ
deriving DecidableEq

/-- The `BandStop` constructor: `Node` sets `value = 0.0`; the constructor sets
`frequency = lib.math.map(0.5, [0, 1], [31, 1319])`; a fresh WebAudio biquad
filter has default Q `1`. -/
def amplifier.audio.BandStop.init : amplifier.audio.BandStop :=
  { value := 0
    frequency := lib.math.map 0.5 (0, 1) (31, 1319)
    q := 1 }

/-- Source `BandStop.prototype.setValue`: `computedValue = 10 * Math.pow(0.1 + Math.min(0.9, newValue), 2)`;
stores the raw value in `this.value` and writes `computedValue` to `Q`.
The center frequency is not touched. -/
def amplifier.audio.BandStop.setValue (s : amplifier.audio.BandStop) (newValue : ℚ) :
    amplifier.audio.BandStop :=
  { s with
    value := newValue
    q := 10 * (0.1 + min 0.9 newValue) ^ 2 }

/-- Source `Node.prototype.getValue` on the band-stop node. -/
def amplifier.audio.BandStop.getValue (s : amplifier.audio.BandStop) : ℚ :=
  s.value

/-- Source `amplifier.audio.Distortion.SAMPLES = 2048`. -/
def amplifier.audio.Distortion.SAMPLES : ℕ := 2048

/-- The body of the loop in `Distortion.prototype.computeCurve_`:
`x = (i - 0) * (1 - (-1)) / (SAMPLES - 0) + (-1)` and
`curve[i] = (1 + k) * x / (1 + k * Math.abs(x))`, for the coefficient `k`. -/
noncomputable def amplifier.audio.Distortion.curveSample (k : ℝ) (i : ℕ) : ℝ :=
  let x : ℝ := ((i : ℝ) - 0) * (1 - (-1)) / ((amplifier.audio.Distortion.SAMPLES : ℝ) - 0) + (-1)
  (1 + k) * x / (1 + k * |x|)

/-- The coefficient computed at the top of `computeCurve_`:
`a = Math.sin(distortion * Math.PI * 0.5)` and `k = 2 * a / (1 - a)`. -/
noncomputable def amplifier.audio.Distortion.kOf (distortion : ℝ) : ℝ :=
  let a := Real.sin (distortion * Real.pi * 0.5)
  2 * a / (1 - a)

/-- Source `Distortion.prototype.computeCurve_`: fills all `SAMPLES` entries of the curve. -/
noncomputable def amplifier.audio.Distortion.computeCurve (distortion : ℝ) : List ℝ :=
  (List.range amplifier.audio.Distortion.SAMPLES).map
    (amplifier.audio.Distortion.curveSample (amplifier.audio.Distortion.kOf distortion))

/-- State of `amplifier.audio.Distortion`: the raw control value inherited from
`Node`, the clamped distortion amount, and the wave-shaper curve. -/
structure amplifier.audio.Distortion where
  value : ℚ
  distortion : ℚ
  curve : List ℝ

/-- The `Distortion` constructor: `value = 0.0`, `distortion = 0.0` and a
zero-filled `Float32Array(SAMPLES)` curve (`computeCurve_` is not called yet). -/
noncomputable def amplifier.audio.Distortion.init : amplifier.audio.Distortion :=
  { value := 0
    distortion := 0
    curve := List.replicate amplifier.audio.Distortion.SAMPLES 0 }

/-- Source `Distortion.prototype.setValue`:
`computedValue = lib.math.clamp(newValue, 0.0, 0.985); this.distortion = computedValue;
this.computeCurve_();` then the raw value is stored via `Node.prototype.setValue`. -/
noncomputable def amplifier.audio.Distortion.setValue (_s : amplifier.audio.Distortion)
    (newValue : ℚ) : amplifier.audio.Distortion :=
  let computedValue := lib.math.clamp newValue 0 0.985
  { value := newValue
    distortion := computedValue
    curve := amplifier.audio.Distortion.computeCurve (computedValue : ℝ) }

/-- Source `Node.prototype.getValue` on the distortion node. -/
def amplifier.audio.Distortion.getValue (s : amplifier.audio.Distortion) : ℚ :=
  s.value

/-- State of `amplifier.audio.Reverb` relevant to its control value: the raw
value inherited from `Node` (never touched by `Reverb.prototype.setValue`) and
the gain of the last all-pass output node (the wet mix, created at level `1.0`). -/
structure amplifier.audio.Reverb where
  value : ℚ
  wetGain : ℚ
deriving DecidableEq

/-- The `Reverb` constructor: `Node` sets `value = 0.0`; the final all-pass
output gain is created by `createGain(1.0)`. -/
def amplifier.audio.Reverb.init : amplifier.audio.Reverb :=
  { value := 0, wetGain := 1 }

/-- Source `Reverb.prototype.setValue`: only
`this.allPasses_[this.allPasses_.length - 1].output.gain.value = newValue;`
the inherited `this.value` is left untouched. -/
def amplifier.audio.Reverb.setValue (s : amplifier.audio.Reverb) (newValue : ℚ) :
    amplifier.audio.Reverb :=
  { s with wetGain := newValue }

/-- Source `Node.prototype.getValue` on the reverb node. -/
def amplifier.audio.Reverb.getValue (s : amplifier.audio.Reverb) : ℚ :=
  s.value

/-- The underlying WebAudio nodes appearing in the signal graph: the seven
serial-chain nodes, the context destination, the reverb delay nodes and their
feedback gains, the reverb all-pass filters and their output gains, and the
microphone media-stream source. -/
inductive Port where
  | comp1
  | dist
  | vol
  | bass
  | middle
  | treble
  | comp2
  | dest
  | delayNode (i : ℕ)
  | delayGain (i : ℕ)
  | apNode (j : ℕ)
  | apGain (j : ℕ)
  | stream
deriving DecidableEq

/-- An `amplifier.audio.Node` as seen by the wiring code: `getInput()` and
`getOutput()` ports (they coincide for every simple node). -/
structure ANode where
  input : Port
  output : Port
deriving DecidableEq

/-- Source `amplifier.audio.compressor1` (wraps one DynamicsCompressor node). -/
def amplifier.audio.compressor1 : ANode := { input := Port.comp1, output := Port.comp1 }

/-- Source `amplifier.audio.compressor2`. -/
def amplifier.audio.compressor2 : ANode := { input := Port.comp2, output := Port.comp2 }

/-- Source `amplifier.audio.distortion` (wraps one WaveShaper node). -/
def amplifier.audio.distortionNode : ANode := { input := Port.dist, output := Port.dist }

/-- Source `amplifier.audio.volume` (wraps one Gain node). -/
def amplifier.audio.volumeNode : ANode := { input := Port.vol, output := Port.vol }

/-- Source `amplifier.audio.bass` (the HighPass filter). -/
def amplifier.audio.bassNode : ANode := { input := Port.bass, output := Port.bass }

/-- Source `amplifier.audio.middle` (the BandStop filter). -/
def amplifier.audio.middleNode : ANode := { input := Port.middle, output := Port.middle }

/-- Source `amplifier.audio.treble` (the LowPass filter). -/
def amplifier.audio.trebleNode : ANode := { input := Port.treble, output := Port.treble }

/-- Source `amplifier.audio.chainNodes(...)`: connects
`nodes[i].getOutput() -> nodes[i + 1].getInput()` for consecutive pairs. -/
def amplifier.audio.chainNodes : List ANode → List (Port × Port)
  | a :: b :: rest => (a.output, b.input) :: amplifier.audio.chainNodes (b :: rest)
  | _ => []

/-- The reverb delay line entries (`createDelay`): each wraps a Delay node
connected at construction to its feedback gain. -/
def amplifier.audio.Reverb.delayNodes : List ANode :=
  (List.range 11).map (fun i => { input := Port.delayNode i, output := Port.delayGain i })

/-- The reverb all-pass line entries (`createAllPass`): each wraps a Biquad
all-pass node connected at construction to its output gain. -/
def amplifier.audio.Reverb.allPassNodes : List ANode :=
  (List.range 4).map (fun j => { input := Port.apNode j, output := Port.apGain j })

/-- The connections made inside the `Reverb` constructor: `createDelay` wires
each delay node to its gain, and `createAllPass` wires each all-pass filter to
its gain. -/
def amplifier.audio.Reverb.constructionConnects : List (Port × Port) :=
  (List.range 11).map (fun i => (Port.delayNode i, Port.delayGain i)) ++
    (List.range 4).map (fun j => (Port.apNode j, Port.apGain j))

/-- Source `Reverb.parallel(nodes, input, output)`: wires `input -> nodes[i].input` and
`nodes[i].output -> output` for every node. -/
def amplifier.audio.Reverb.parallel (nodes : List ANode) (input output : Port) :
    List (Port × Port) :=
  nodes.flatMap (fun n => [(input, n.input), (n.output, output)])

/-- Source `Reverb.serial(nodes, output)`: wires `nodes[i].output -> nodes[i + 1].input`
for consecutive pairs, then the last node's output to `output`. -/
def amplifier.audio.Reverb.serial : List ANode → Port → List (Port × Port)
  | [], _ => []
  | [a], output => [(a.output, output)]
  | a :: b :: rest, output =>
      (a.output, b.input) :: amplifier.audio.Reverb.serial (b :: rest) output

/-- Source `Reverb.prototype.connect(input, output)`: the delay line in parallel from
`input` into `allPasses_[0].input`, then the all-pass line serially into `output`. -/
def amplifier.audio.Reverb.connect (input output : Port) : List (Port × Port) :=
  amplifier.audio.Reverb.parallel amplifier.audio.Reverb.delayNodes input (Port.apNode 0) ++
    amplifier.audio.Reverb.serial amplifier.audio.Reverb.allPassNodes output

/-- All `connect` calls performed by `amplifier.audio.initNodes`, in order:
the reverb-internal construction connects, the serial chain, the chain tail
into the context destination, and the parallel reverb wiring. -/
def amplifier.audio.initConnections : List (Port × Port) :=
  amplifier.audio.Reverb.constructionConnects ++
    amplifier.audio.chainNodes
      [amplifier.audio.compressor1, amplifier.audio.distortionNode,
        amplifier.audio.volumeNode, amplifier.audio.bassNode, amplifier.audio.middleNode,
        amplifier.audio.trebleNode, amplifier.audio.compressor2] ++
    [(amplifier.audio.compressor2.output, Port.dest)] ++
    amplifier.audio.Reverb.connect amplifier.audio.compressor2.output Port.dest

/-- Source `amplifier.audio.getFirstNode()`: `compressor1.getInput()`. -/
def amplifier.audio.getFirstNode : Port :=
  amplifier.audio.compressor1.input

/-- The switch identifiers used on the message bus. -/
inductive SwitchId where
  | POWER
  | SOUND
deriving DecidableEq

/-- Outbound signals produced by the audio core on the message bus. -/
inductive Signal where
  | switchFailure (id : SwitchId)
deriving DecidableEq

/-- The error values thrown by the embedded code (`throw Error(message)` and
host-level null dereferences). -/
inductive JSErr where
  | unauthorizedMicrophone
  | invalidConfiguration
  | validationFailed
  | nullDereference
deriving DecidableEq

/-- Source `amplifier.core.error(message)`: for now, just throws the error. -/
def amplifier.core.error (message : JSErr) : Except JSErr Unit :=
  Except.error message

/-- Outcome of the asynchronous `navigator.webkitGetUserMedia` request. -/
inductive Permission where
  | granted
  | denied
deriving DecidableEq

/-- Source `amplifier.audio.input.streamSource`: `null` until the first successful
microphone grant creates a media-stream source. -/
structure InputState where
  streamSource : Option ℕ
deriving DecidableEq

/-- Source `amplifier.audio.input.errorCallback`: sends `SWITCH_FAILURE / POWER` on the
message bus and then calls `amplifier.core.error`, which throws. -/
def amplifier.audio.input.errorCallback : List Signal × Except JSErr Unit :=
  ([Signal.switchFailure SwitchId.POWER],
    amplifier.core.error JSErr.unauthorizedMicrophone)

/-- Source `amplifier.audio.input.connect`, with the browser's permission decision made
explicit. Result: new input state, graph connections made (stream to target
port), signals sent, and normal return or thrown error.

With no stream source yet, `getUserMedia` resolves to `successCallback` (create
the stream source and connect it to `getFirstNode()`) or `errorCallback`; with
an existing stream source it reconnects immediately. -/
def amplifier.audio.input.connect (s : InputState) (perm : Permission) :
    InputState × List (Port × Port) × List Signal × Except JSErr Unit :=
  match s.streamSource with
  | none =>
      match perm with
      | Permission.granted =>
          ({ streamSource := some 0 },
            [(Port.stream, amplifier.audio.getFirstNode)], [], Except.ok ())
      | Permission.denied =>
          (s, [], amplifier.audio.input.errorCallback.1,
            amplifier.audio.input.errorCallback.2)
  | some _ =>
      (s, [(Port.stream, amplifier.audio.getFirstNode)], [], Except.ok ())

/-- Source `amplifier.audio.input.disconnect`:
`amplifier.audio.input.streamSource.disconnect()`. When `streamSource` is still
`null` this is a null dereference, which throws a TypeError in the host. -/
def amplifier.audio.input.disconnect (s : InputState) : Except JSErr Unit :=
  match s.streamSource with
  | none => Except.error JSErr.nullDereference
  | some _ => Except.ok ()

/-- Source `amplifier.audio.power(state)`: `input.connect()` on `true`,
`input.disconnect()` on `false`. -/
def amplifier.audio.power (state : Bool) (s : InputState) (perm : Permission) :
    InputState × List (Port × Port) × List Signal × Except JSErr Unit :=
  if state then amplifier.audio.input.connect s perm
  else (s, [], [], amplifier.audio.input.disconnect s)

/-- A JSON value sitting in one field of a parsed configuration record:
either a number or some non-numeric value (the claims' example is a string). -/
inductive ConfigField where
  | num (value : ℚ)
  | str
deriving DecidableEq

/-- Whether `typeof configField == 'number'`. -/
def ConfigField.isNumber : ConfigField → Bool
  | ConfigField.num _ => true
  | ConfigField.str => false

/-- The numeric content of a field; only consulted on fields that already
passed `validateField_`. -/
def ConfigField.toNumber : ConfigField → ℚ
  | ConfigField.num v => v
  | ConfigField.str => 0

/-- A parsed configuration record (`amplifier.config.Config`): six fields. -/
structure ConfigRecord where
  volume : ConfigField
  distortion : ConfigField
  bass : ConfigField
  middle : ConfigField
  treble : ConfigField
  reverb : ConfigField
deriving DecidableEq

/-- Whether all six fields are numbers. -/
def ConfigRecord.allNumeric (c : ConfigRecord) : Bool :=
  c.volume.isNumber && c.distortion.isNumber && c.bass.isNumber &&
    c.middle.isNumber && c.treble.isNumber && c.reverb.isNumber

/-- Source `amplifier.config.validateField_`: throws unless the field is a number. -/
def amplifier.config.validateField (configField : ConfigField) : Except JSErr Unit :=
  match configField with
  | ConfigField.num _ => Except.ok ()
  | ConfigField.str => Except.error JSErr.validationFailed

/-- Source `amplifier.config.validate`: checks the six fields in source order,
propagating the first thrown error, and returns the record unchanged. -/
def amplifier.config.validate (config : ConfigRecord) : Except JSErr ConfigRecord :=
  match amplifier.config.validateField config.volume with
  | Except.error e => Except.error e
  | Except.ok _ =>
  match amplifier.config.validateField config.distortion with
  | Except.error e => Except.error e
  | Except.ok _ =>
  match amplifier.config.validateField config.bass with
  | Except.error e => Except.error e
  | Except.ok _ =>
  match amplifier.config.validateField config.middle with
  | Except.error e => Except.error e
  | Except.ok _ =>
  match amplifier.config.validateField config.treble with
  | Except.error e => Except.error e
  | Except.ok _ =>
  match amplifier.config.validateField config.reverb with
  | Except.error e => Except.error e
  | Except.ok _ => Except.ok config

/-- The six knob positions held by the UI (`amplifier.ui.Knob.value_`). -/
structure KnobState where
  volume : ℚ
  distortion : ℚ
  bass : ℚ
  middle : ℚ
  treble : ℚ
  reverb : ℚ
deriving DecidableEq

/-- Source `amplifier.ui.Knob.prototype.setValue`: the stored knob value is
`lib.math.clamp(newValue, 0.0, 1.0)` (then the UI redraws and broadcasts
`KNOB_VALUE` with the clamped value). -/
def amplifier.ui.Knob.setValue (newValue : ℚ) : ℚ :=
  lib.math.clamp newValue 0 1

/-- Source `amplifier.config.load(config)`: pushes each field into the matching knob
via `Knob.setValue`. -/
def amplifier.config.load (config : ConfigRecord) (_s : KnobState) : KnobState :=
  { volume := amplifier.ui.Knob.setValue config.volume.toNumber
    distortion := amplifier.ui.Knob.setValue config.distortion.toNumber
    bass := amplifier.ui.Knob.setValue config.bass.toNumber
    middle := amplifier.ui.Knob.setValue config.middle.toNumber
    treble := amplifier.ui.Knob.setValue config.treble.toNumber
    reverb := amplifier.ui.Knob.setValue config.reverb.toNumber }

/-- Source `amplifier.config.readFile` after JSON parsing: validates, loads on
success; on a thrown validation error, leaves the knobs as they are and calls
`amplifier.core.error('Invalid configuration')`, which throws. -/
def amplifier.config.readFile (config : ConfigRecord) (s : KnobState) :
    KnobState × Except JSErr Unit :=
  match amplifier.config.validate config with
  | Except.ok validConfig => (amplifier.config.load validConfig s, Except.ok ())
  | Except.error _ => (s, amplifier.core.error JSErr.invalidConfiguration)

/-- Applying any single volume operation re-establishes the gain invariant. -/
lemma amplifier.audio.Volume.apply_gainInv (s : amplifier.audio.Volume) (op : VolumeOp) :
    amplifier.audio.Volume.gainInv (amplifier.audio.Volume.apply s op) := by
  cases op <;>
    simp [amplifier.audio.Volume.apply, amplifier.audio.Volume.setValue,
      amplifier.audio.Volume.turnOn, amplifier.audio.Volume.turnOff,
      amplifier.audio.Volume.gainInv]

/-- The freshly constructed volume node satisfies the gain invariant. -/
lemma amplifier.audio.Volume.init_gainInv :
    amplifier.audio.Volume.gainInv amplifier.audio.Volume.init := by
  simp [amplifier.audio.Volume.init, amplifier.audio.Volume.turnOff,
    amplifier.audio.Volume.setValue, amplifier.audio.Volume.gainInv]

/-- C1. The claim says the BASS (HighPass) frequency lies in `[31, 650]` and the
TREBLE (LowPass) frequency lies in `[650, 1319]` for control values in `[0, 1]`.
Because `lib.math.map` never adds the output interval's lower bound, the code
computes `619 * (1 - v)^2` and `669 * v^2`: at `v = 1` the BASS frequency is
`0` Hz (below the claimed 31) and at `v = 0` the TREBLE frequency is `0` Hz
(below the claimed 650), contradicting the code's own comment that the filters
should accommodate `[31Hz - 1319Hz]`. -/
theorem bassTrebleFrequencyOutOfClaimedRange :
    (amplifier.audio.HighPass.setValue amplifier.audio.Biquad.init 1).frequency = 0
    ∧ ¬ (31 ≤ (amplifier.audio.HighPass.setValue amplifier.audio.Biquad.init 1).frequency)
    ∧ (amplifier.audio.LowPass.setValue amplifier.audio.Biquad.init 0).frequency = 0
    ∧ ¬ (650 ≤ (amplifier.audio.LowPass.setValue amplifier.audio.Biquad.init 0).frequency) := by
  norm_num [amplifier.audio.HighPass.setValue, amplifier.audio.LowPass.setValue,
    amplifier.audio.Biquad.setValue, lib.math.map]

/-- C3. Physical gain equals `controlValue * AMPLIFICATION` when on and `0`
when off, across every sequence of `setValue` / `turnOn` / `turnOff` starting
from the constructor; and the spec scenario: `setValue(0.5)` then `turnOn()`
gives gain `5.0`, after which `turnOff()` gives gain `0.0` with the control
value still `0.5`. -/
theorem volumeGainInvariantAndScenario :
    (∀ ops : List VolumeOp,
        amplifier.audio.Volume.gainInv
          (ops.foldl amplifier.audio.Volume.apply amplifier.audio.Volume.init))
    ∧ (amplifier.audio.Volume.turnOn
        (amplifier.audio.Volume.setValue amplifier.audio.Volume.init 0.5)).gain = 5
    ∧ (amplifier.audio.Volume.turnOff (amplifier.audio.Volume.turnOn
        (amplifier.audio.Volume.setValue amplifier.audio.Volume.init 0.5))).gain = 0
    ∧ (amplifier.audio.Volume.turnOff (amplifier.audio.Volume.turnOn
        (amplifier.audio.Volume.setValue amplifier.audio.Volume.init 0.5))).value = 0.5 := by
  refine ⟨?_, by norm_num [amplifier.audio.Volume.init, amplifier.audio.Volume.turnOn,
      amplifier.audio.Volume.turnOff, amplifier.audio.Volume.setValue,
      amplifier.audio.Volume.AMPLIFICATION],
    by norm_num [amplifier.audio.Volume.init, amplifier.audio.Volume.turnOn,
      amplifier.audio.Volume.turnOff, amplifier.audio.Volume.setValue,
      amplifier.audio.Volume.AMPLIFICATION],
    by norm_num [amplifier.audio.Volume.init, amplifier.audio.Volume.turnOn,
      amplifier.audio.Volume.turnOff, amplifier.audio.Volume.setValue,
      amplifier.audio.Volume.AMPLIFICATION]⟩
  have run : ∀ (l : List VolumeOp) (s : amplifier.audio.Volume),
      amplifier.audio.Volume.gainInv s →
        amplifier.audio.Volume.gainInv (l.foldl amplifier.audio.Volume.apply s) := by
    intro l
    induction l with
    | nil => exact fun s h => h
    | cons op rest ih =>
        exact fun s _ => ih _ (amplifier.audio.Volume.apply_gainInv s op)
  exact fun ops => run ops _ amplifier.audio.Volume.init_gainInv

/-- C4. `initNodes` makes exactly these connections, in order: the reverb's
construction-time internal wiring (delay node to feedback gain, all-pass node to
its gain), the serial chain Compressor1 -> Distortion -> Volume -> HighPass ->
BandStop -> LowPass -> Compressor2, Compressor2 into the destination, then the
reverb in parallel (Compressor2's output into each of the 11 delay taps, each
tap into the first all-pass, the all-pass chain serially into the destination).
The externally exposed first node is Compressor1's input port. -/
theorem graphWiringSpec :
    amplifier.audio.initConnections =
      [(Port.delayNode 0, Port.delayGain 0), (Port.delayNode 1, Port.delayGain 1),
        (Port.delayNode 2, Port.delayGain 2), (Port.delayNode 3, Port.delayGain 3),
        (Port.delayNode 4, Port.delayGain 4), (Port.delayNode 5, Port.delayGain 5),
        (Port.delayNode 6, Port.delayGain 6), (Port.delayNode 7, Port.delayGain 7),
        (Port.delayNode 8, Port.delayGain 8), (Port.delayNode 9, Port.delayGain 9),
        (Port.delayNode 10, Port.delayGain 10),
        (Port.apNode 0, Port.apGain 0), (Port.apNode 1, Port.apGain 1),
        (Port.apNode 2, Port.apGain 2), (Port.apNode 3, Port.apGain 3),
        (Port.comp1, Port.dist), (Port.dist, Port.vol), (Port.vol, Port.bass),
        (Port.bass, Port.middle), (Port.middle, Port.treble), (Port.treble, Port.comp2),
        (Port.comp2, Port.dest),
        (Port.comp2, Port.delayNode 0), (Port.delayGain 0, Port.apNode 0),
        (Port.comp2, Port.delayNode 1), (Port.delayGain 1, Port.apNode 0),
        (Port.comp2, Port.delayNode 2), (Port.delayGain 2, Port.apNode 0),
        (Port.comp2, Port.delayNode 3), (Port.delayGain 3, Port.apNode 0),
        (Port.comp2, Port.delayNode 4), (Port.delayGain 4, Port.apNode 0),
        (Port.comp2, Port.delayNode 5), (Port.delayGain 5, Port.apNode 0),
        (Port.comp2, Port.delayNode 6), (Port.delayGain 6, Port.apNode 0),
        (Port.comp2, Port.delayNode 7), (Port.delayGain 7, Port.apNode 0),
        (Port.comp2, Port.delayNode 8), (Port.delayGain 8, Port.apNode 0),
        (Port.comp2, Port.delayNode 9), (Port.delayGain 9, Port.apNode 0),
        (Port.comp2, Port.delayNode 10), (Port.delayGain 10, Port.apNode 0),
        (Port.apGain 0, Port.apNode 1), (Port.apGain 1, Port.apNode 2),
        (Port.apGain 2, Port.apNode 3), (Port.apGain 3, Port.dest)]
    ∧ amplifier.audio.getFirstNode = Port.comp1 := by
  constructor <;> rfl

/-- C5. `BandStop.setValue(v)` always sets `Q = 10 * (0.1 + min(0.9, v))^2` and
never touches the center frequency, which the constructor fixed at
`lib.math.map(0.5, [0, 1], [31, 1319]) = 644`; in particular `setValue(0.95)`
yields `Q = 10`. -/
theorem bandStopSetValueSpec :
    (∀ (s : amplifier.audio.BandStop) (v : ℚ),
        (amplifier.audio.BandStop.setValue s v).q = 10 * (0.1 + min 0.9 v) ^ 2
        ∧ (amplifier.audio.BandStop.setValue s v).frequency = s.frequency)
    ∧ amplifier.audio.BandStop.init.frequency = 644
    ∧ (amplifier.audio.BandStop.setValue amplifier.audio.BandStop.init 0.95).q = 10 := by
  refine ⟨fun s v => ⟨rfl, rfl⟩,
    by norm_num [amplifier.audio.BandStop.init, lib.math.map], ?_⟩
  show (10 : ℚ) * (0.1 + min 0.9 0.95) ^ 2 = 10
  rw [min_eq_left (by norm_num)]
  norm_num

/-- C6. Power-on with no prior stream handle and denied microphone permission:
the code sends exactly one `SWITCH_FAILURE / POWER` signal and makes zero graph
connections, but then `amplifier.audio.input.errorCallback` calls
`amplifier.core.error`, which throws an (uncaught) `Error` instead of returning
normally — contradicting the claim's "converted ... without crashing" and the
code's own `TODO` comment that the error should be displayed in the UI. -/
theorem permissionDeniedEmitsFailureAndThrows :
    amplifier.audio.power true { streamSource := none } Permission.denied
      = ({ streamSource := none }, [], [Signal.switchFailure SwitchId.POWER],
          Except.error JSErr.unauthorizedMicrophone) := by
  rfl

/-- C10. Powering off (`power(false)`) before any stream handle was ever
created runs `amplifier.audio.input.streamSource.disconnect()` on `null`, which
throws rather than acting as a no-op. -/
theorem powerOffWithNullStreamThrows :
    ∀ perm : Permission,
      amplifier.audio.power false { streamSource := none } perm
        = ({ streamSource := none }, [], [], Except.error JSErr.nullDereference) :=
  fun _ => rfl

/-- C7. If any of the six fields of a configuration record is non-numeric, the
load is rejected wholesale: `validate` throws before `load` runs, so every knob
keeps its pre-load value, and `readFile` ends in the thrown
`Invalid configuration` error. -/
theorem configRejectWholesale (c : ConfigRecord) (s : KnobState)
    (h : c.allNumeric = false) :
    (amplifier.config.readFile c s).1 = s
    ∧ (amplifier.config.readFile c s).2 = Except.error JSErr.invalidConfiguration := by
  rcases c with ⟨f1, f2, f3, f4, f5, f6⟩
  cases f1 <;> cases f2 <;> cases f3 <;> cases f4 <;> cases f5 <;> cases f6 <;>
    simp_all [ConfigRecord.allNumeric, ConfigField.isNumber, amplifier.config.readFile,
      amplifier.config.validate, amplifier.config.validateField, amplifier.core.error]

/-- Witness for C7: a record with a string in place of `bass` leaves a concrete
knob state untouched. -/
theorem configRejectWholesaleWitness :
    (ConfigRecord.mk (ConfigField.num 0.4) (ConfigField.num 0.4) ConfigField.str
        (ConfigField.num 0.7) (ConfigField.num 0.9) (ConfigField.num 0.2)).allNumeric = false
    ∧ ((amplifier.config.readFile
          (ConfigRecord.mk (ConfigField.num 0.4) (ConfigField.num 0.4) ConfigField.str
            (ConfigField.num 0.7) (ConfigField.num 0.9) (ConfigField.num 0.2))
          (KnobState.mk 1 2 3 4 5 6)).1 = KnobState.mk 1 2 3 4 5 6
        ∧ (amplifier.config.readFile
            (ConfigRecord.mk (ConfigField.num 0.4) (ConfigField.num 0.4) ConfigField.str
              (ConfigField.num 0.7) (ConfigField.num 0.9) (ConfigField.num 0.2))
            (KnobState.mk 1 2 3 4 5 6)).2 = Except.error JSErr.invalidConfiguration) :=
  ⟨rfl, configRejectWholesale _ _ rfl⟩

/-- C8. The claim fails on the Reverb node: `Reverb.prototype.setValue` writes
only the wet-mix gain and never stores the raw control value, so `getValue`
after `setValue(0.5)` still returns the initial `0`, not `0.5`. -/
theorem reverbGetValueCounterexample :
    amplifier.audio.Reverb.getValue
        (amplifier.audio.Reverb.setValue amplifier.audio.Reverb.init 0.5) = 0
    ∧ (0 : ℚ) ≠ 0.5 := by
  exact ⟨rfl, by norm_num⟩

/-- C8 (amended). For Volume, HighPass, BandStop, LowPass and Distortion,
`setValue(x)` stores the raw `x` and `getValue()` returns it (not the derived
physical parameter); Reverb alone leaves its stored control value unchanged, so
its `getValue()` returns the previous value instead of `x`. -/
theorem setValueStoresRawSpec :
    (∀ (s : amplifier.audio.Volume) (v : ℚ),
        amplifier.audio.Volume.getValue (amplifier.audio.Volume.setValue s v) = v)
    ∧ (∀ (s : amplifier.audio.Biquad) (v : ℚ),
        amplifier.audio.Biquad.getValue (amplifier.audio.HighPass.setValue s v) = v)
    ∧ (∀ (s : amplifier.audio.Biquad) (v : ℚ),
        amplifier.audio.Biquad.getValue (amplifier.audio.LowPass.setValue s v) = v)
    ∧ (∀ (s : amplifier.audio.BandStop) (v : ℚ),
        amplifier.audio.BandStop.getValue (amplifier.audio.BandStop.setValue s v) = v)
    ∧ (∀ (s : amplifier.audio.Distortion) (v : ℚ),
        amplifier.audio.Distortion.getValue (amplifier.audio.Distortion.setValue s v) = v)
    ∧ (∀ (s : amplifier.audio.Reverb) (v : ℚ),
        amplifier.audio.Reverb.getValue (amplifier.audio.Reverb.setValue s v)
          = amplifier.audio.Reverb.getValue s) :=
  ⟨fun _ _ => rfl, fun _ _ => rfl, fun _ _ => rfl, fun _ _ => rfl,
    fun _ _ => rfl, fun _ _ => rfl⟩

/-- C9. The claim fails on the Volume node: with the volume on, `setValue(2)`
derives gain `20` directly from the raw out-of-range input; had the input been
clamped into `[0, 1]` first, the gain would have been
`clamp(2, 0, 1) * AMPLIFICATION = 10`. -/
theorem volumeNoClampCounterexample :
    (amplifier.audio.Volume.setValue
        (amplifier.audio.Volume.turnOn amplifier.audio.Volume.init) 2).gain = 20
    ∧ lib.math.clamp 2 0 1 * amplifier.audio.Volume.AMPLIFICATION = 10
    ∧ (20 : ℚ) ≠ 10 := by
  refine ⟨?_, ?_, by norm_num⟩
  · norm_num [amplifier.audio.Volume.init, amplifier.audio.Volume.turnOn,
      amplifier.audio.Volume.turnOff, amplifier.audio.Volume.setValue,
      amplifier.audio.Volume.AMPLIFICATION]
  · norm_num [lib.math.clamp, amplifier.audio.Volume.AMPLIFICATION]

/-- C9 (amended). No `setValue` in the core ever fails (all are total); the
clamping of out-of-range inputs happens in `amplifier.ui.Knob.setValue` (into
`[0, 1]`, before the value is broadcast to the audio nodes) and inside
`Distortion.setValue` (into `[0, 0.985]`); the other audio nodes apply the raw
value directly to their physical parameter, e.g. Volume with the sound on maps
`setValue(2)` to gain `20`. -/
theorem clampingLocationSpec :
    (∀ v : ℚ, 0 ≤ amplifier.ui.Knob.setValue v ∧ amplifier.ui.Knob.setValue v ≤ 1)
    ∧ (∀ (s : amplifier.audio.Distortion) (v : ℚ),
        0 ≤ (amplifier.audio.Distortion.setValue s v).distortion
        ∧ (amplifier.audio.Distortion.setValue s v).distortion ≤ 0.985)
    ∧ (amplifier.audio.Volume.setValue
        (amplifier.audio.Volume.turnOn amplifier.audio.Volume.init) 2).gain = 20 := by
  refine ⟨fun v => ⟨le_max_right _ _, ?_⟩, fun s v => ⟨le_max_right _ _, ?_⟩, ?_⟩
  · exact max_le (min_le_right _ _) (by norm_num)
  · show lib.math.clamp v 0 0.985 ≤ 0.985
    exact max_le (min_le_right _ _) (by norm_num)
  · norm_num [amplifier.audio.Volume.init, amplifier.audio.Volume.turnOn,
      amplifier.audio.Volume.turnOff, amplifier.audio.Volume.setValue,
      amplifier.audio.Volume.AMPLIFICATION]

/-- The loop body of `computeCurve_` in closed form: the abscissa is
`x = i * 2 / 2048 - 1` (the source divides by `SAMPLES`, not `SAMPLES - 1`). -/
lemma amplifier.audio.Distortion.curveSample_eq (k : ℝ) (i : ℕ) :
    amplifier.audio.Distortion.curveSample k i
      = (1 + k) * ((i : ℝ) * 2 / 2048 - 1) / (1 + k * |(i : ℝ) * 2 / 2048 - 1|) := by
  have hx : ((i : ℝ) - 0) * (1 - (-1)) / ((amplifier.audio.Distortion.SAMPLES : ℝ) - 0) + (-1)
      = (i : ℝ) * 2 / 2048 - 1 := by
    simp only [amplifier.audio.Distortion.SAMPLES]
    push_cast
    ring
  simp only [amplifier.audio.Distortion.curveSample]
  rw [hx]

/-- Source `curveSample` as a function, in closed form. -/
lemma amplifier.audio.Distortion.curveSampleFun_eq (k : ℝ) :
    amplifier.audio.Distortion.curveSample k
      = fun i : ℕ =>
          (1 + k) * ((i : ℝ) * 2 / 2048 - 1) / (1 + k * |(i : ℝ) * 2 / 2048 - 1|) :=
  funext fun i => amplifier.audio.Distortion.curveSample_eq k i

/-- The distortion coefficient with the sine argument written as in the spec. -/
lemma amplifier.audio.Distortion.kOf_eq (d : ℝ) :
    amplifier.audio.Distortion.kOf d
      = 2 * Real.sin (d * Real.pi / 2) / (1 - Real.sin (d * Real.pi / 2)) := by
  simp only [amplifier.audio.Distortion.kOf]
  rw [show d * Real.pi * 0.5 = d * Real.pi / 2 from by ring]

/-- At distortion amount `0`, `a = sin 0 = 0` and hence `k = 0`. -/
lemma amplifier.audio.Distortion.kOf_zero : amplifier.audio.Distortion.kOf 0 = 0 := by
  simp [amplifier.audio.Distortion.kOf]

/-- At distortion amount `0` the computed curve is the sampled identity
`i * 2 / 2048 - 1`. -/
lemma amplifier.audio.Distortion.curve_at_zero :
    (amplifier.audio.Distortion.setValue amplifier.audio.Distortion.init 0).curve
      = (List.range 2048).map (fun i : ℕ => (i : ℝ) * 2 / 2048 - 1) := by
  simp only [amplifier.audio.Distortion.setValue]
  have hc : lib.math.clamp 0 0 0.985 = 0 := by
    norm_num [lib.math.clamp, min_def, max_def]
  rw [hc, Rat.cast_zero]
  simp only [amplifier.audio.Distortion.computeCurve, amplifier.audio.Distortion.kOf_zero]
  have hf : amplifier.audio.Distortion.curveSample 0
      = fun i : ℕ => (i : ℝ) * 2 / 2048 - 1 := by
    funext i
    rw [amplifier.audio.Distortion.curveSample_eq]
    norm_num
  rw [hf]
  simp only [amplifier.audio.Distortion.SAMPLES]

/-- C2 (counterexample to the sample formula). The claim's per-sample abscissa
`x = i * 2 / 2047 - 1` would make `curve[2047] = 1` on the identity curve
(distortion amount `0`), but the code divides by `2048`, producing
`1023 / 1024 ≠ 1`. -/
theorem distortionCurveSampleFormulaCounterexample :
    (amplifier.audio.Distortion.setValue amplifier.audio.Distortion.init 0).curve[2047]?
      = some ((1023 : ℝ) / 1024)
    ∧ (2047 : ℝ) * 2 / 2047 - 1 = 1
    ∧ ((1023 : ℝ) / 1024) ≠ 1 := by
  refine ⟨?_, by norm_num, by norm_num⟩
  rw [amplifier.audio.Distortion.curve_at_zero, List.getElem?_map,
    List.getElem?_range (show 2047 < 2048 from by norm_num), Option.map_some']
  norm_num

/-- C2 (amended). `Distortion.setValue(v)` clamps `v` into `[0, 0.985]`, stores
the clamped amount, and recomputes all 2048 curve samples as
`curve[i] = (1 + k) * x / (1 + k * |x|)` with `a = sin(clamped * pi / 2)`,
`k = 2 * a / (1 - a)` and `x = i * 2 / 2048 - 1` (the source divides by
`SAMPLES = 2048`, not `2047`); at distortion amount `0` the curve is the
sampled identity, `curve[0] = -1` exactly and `curve[2047] = 1023 / 1024`,
within `1 / 1000` of `1`. -/
theorem distortionSetValueCurveSpec :
    (∀ (s : amplifier.audio.Distortion) (v : ℚ),
        let a := Real.sin (((lib.math.clamp v 0 0.985 : ℚ) : ℝ) * Real.pi / 2)
        let k := 2 * a / (1 - a)
        (amplifier.audio.Distortion.setValue s v).distortion = lib.math.clamp v 0 0.985
        ∧ (amplifier.audio.Distortion.setValue s v).curve.length = 2048
        ∧ (amplifier.audio.Distortion.setValue s v).curve
            = (List.range 2048).map (fun i : ℕ =>
                (1 + k) * ((i : ℝ) * 2 / 2048 - 1)
                  / (1 + k * |(i : ℝ) * 2 / 2048 - 1|)))
    ∧ (amplifier.audio.Distortion.setValue amplifier.audio.Distortion.init 0).curve
        = (List.range 2048).map (fun i : ℕ => (i : ℝ) * 2 / 2048 - 1)
    ∧ (amplifier.audio.Distortion.setValue amplifier.audio.Distortion.init 0).curve[0]?
        = some ((-1 : ℝ))
    ∧ (amplifier.audio.Distortion.setValue amplifier.audio.Distortion.init 0).curve[2047]?
        = some ((1023 : ℝ) / 1024)
    ∧ |(1023 : ℝ) / 1024 - 1| ≤ 1 / 1000 := by
  refine ⟨?_, amplifier.audio.Distortion.curve_at_zero, ?_, ?_, ?_⟩
  · intro s v
    dsimp only
    refine ⟨?_, ?_, ?_⟩
    · simp only [amplifier.audio.Distortion.setValue]
    · simp only [amplifier.audio.Distortion.setValue, amplifier.audio.Distortion.computeCurve,
        amplifier.audio.Distortion.SAMPLES, List.length_map, List.length_range]
    · simp only [amplifier.audio.Distortion.setValue, amplifier.audio.Distortion.computeCurve]
      rw [amplifier.audio.Distortion.kOf_eq, amplifier.audio.Distortion.curveSampleFun_eq]
      simp only [amplifier.audio.Distortion.SAMPLES]
  · rw [amplifier.audio.Distortion.curve_at_zero, List.getElem?_map,
      List.getElem?_range (show 0 < 2048 from by norm_num), Option.map_some']
    norm_num
  · rw [amplifier.audio.Distortion.curve_at_zero, List.getElem?_map,
      List.getElem?_range (show 2047 < 2048 from by norm_num), Option.map_some']
    norm_num
  · rw [abs_le]
    constructor <;> norm_num
